import Mathlib

/-!
Shallow embedding of the runtime simulation core of the star-eater-retro
arcade game (JavaScript), together with theorems checking the spec's claims
against it.  Numeric JS values are modelled as rationals (`ℚ`); JS arrays as
`List`; JS objects as structures; DOM / sound / particle side effects that do
not touch game state are elided (noted per definition).
-/

namespace StarEater

/-- Axis-aligned rectangle, the duck-typed `{x, y, width, height}` shape JS
entities expose to the collision predicate. -/
structure Rect where
  x : ℚ
  y : ℚ
  width : ℚ
  height : ℚ
deriving Repr, DecidableEq

/-- `CollisionManager.checkRectCollision` (third staged document inside
`src/js/game-engine.js`; `src/js/projectiles.js` carries an identical inline
copy): strict-inequality rect overlap, so edge-touching does not count. -/
def checkRectCollision (r1 r2 : Rect) : Bool :=
  decide (r1.x < r2.x + r2.width) && decide (r1.x + r1.width > r2.x) &&
  decide (r1.y < r2.y + r2.height) && decide (r1.y + r1.height > r2.y)

/-- Enemy record, from the templates and mutation sites in
`src/js/enemies.js` and the freeze bookkeeping in the PowerUpManager.
`originalSpeed` is `none` when the JS field is absent (`undefined`). -/
structure Enemy where
  x : ℚ
  y : ℚ
  width : ℚ
  height : ℚ
  health : ℚ
  points : ℚ
  speed : ℚ
  freezeTime : ℚ
  originalSpeed : Option ℚ := none
deriving Repr, DecidableEq

def Enemy.toRect (e : Enemy) : Rect :=
  { x := e.x, y := e.y, width := e.width, height := e.height }

/-! ## PowerUpManager freeze bookkeeping (src/unnamed/part_006) -/

/-- `PowerUpManager.freezeEnemy(enemy, duration)`: an already-frozen enemy
(`freezeTime > 0`) gets `freezeTime += duration`; a first freeze stashes
`originalSpeed`, zeroes `speed` and sets `freezeTime = duration`.  The DOM
freeze-effect element is elided. -/
def freezeEnemy (e : Enemy) (duration : ℚ) : Enemy :=
  if e.freezeTime > 0 then
    { e with freezeTime := e.freezeTime + duration }
  else
    { e with originalSpeed := some e.speed, speed := 0, freezeTime := duration }

/-- `PowerUpManager.unfreezeEnemy(enemy)`: restores `originalSpeed` when it
was stashed (then deletes the stash) and zeroes `freezeTime`. -/
def unfreezeEnemy (e : Enemy) : Enemy :=
  match e.originalSpeed with
  | some s => { e with speed := s, originalSpeed := none, freezeTime := 0 }
  | none => { e with freezeTime := 0 }

/-! ## PowerUpStateManager (src/unnamed/part_004) -/

/-- One per-power-up record of the `PowerUpStateManager`'s `states` map.
Records in the JS source carry a subset of these fields; a missing numeric
field behaves like `0` at every site the manager reads it. -/
structure PState where
  unlocked : Bool
  active : Bool
  cooldown : ℚ
  duration : ℚ
  cooldownDuration : ℚ
deriving Repr, DecidableEq

/-- The `states` map: association list keyed by power-up name (JS `Map`
preserving insertion order). -/
abbrev PStates := List (String × PState)

/-- `PowerUpStateManager.updateCooldowns(deltaTime)`: every record with a
positive cooldown gets `cooldown = max(0, cooldown - deltaTime)` merged in via
`setState`; other records are untouched.  Subscriber notification only syncs
unlock flags / DOM and is elided. -/
def updateCooldowns (dt : ℚ) (m : PStates) : PStates :=
  m.map fun p =>
    if p.2.cooldown > 0 then (p.1, { p.2 with cooldown := max 0 (p.2.cooldown - dt) })
    else p

/-- `PowerUpStateManager.clear()`: merges
`{active: false, cooldown: 0, duration: 0}` into every record via
`setState`; all other fields of each record survive the spread. -/
def clearStates (m : PStates) : PStates :=
  m.map fun p => (p.1, { p.2 with active := false, cooldown := 0, duration := 0 })

/-- `PowerUpStateManager.initializeDefaultStates()`: the five seed records
of the `states` map.  JS fields a record omits (`duration` on the first
three, `cooldown`/`duration` on `starPower`, every timer plus
`cooldownDuration` on `endlessMode`) read as `undefined` and behave as 0 at
every site the manager tests them, modelled as 0. -/
def initializeDefaultStates : PStates :=
  [ ("shield", { unlocked := false, active := false, cooldown := 0, duration := 0, cooldownDuration := 30 }),
    ("ionPulse", { unlocked := false, active := false, cooldown := 0, duration := 0, cooldownDuration := 25 }),
    ("radar", { unlocked := false, active := false, cooldown := 0, duration := 0, cooldownDuration := 45 }),
    ("starPower", { unlocked := true, active := false, cooldown := 0, duration := 0, cooldownDuration := 10 }),
    ("endlessMode", { unlocked := false, active := false, cooldown := 0, duration := 0, cooldownDuration := 0 }) ]

/-! ## Claim theorems (freeze bookkeeping and state store) -/

/-- C6: freeze duration is additive — freezing an enemy already frozen with
remaining time `f > 0` by `d` yields `f + d` (and leaves speed/stash alone);
a first freeze stashes `originalSpeed` and zeroes `speed`; unfreezing
restores the stashed speed and zeroes `freezeTime`. -/
theorem freeze_additive_stash_restore (e : Enemy) (d : ℚ) :
    (0 < e.freezeTime →
      (freezeEnemy e d).freezeTime = e.freezeTime + d ∧
      (freezeEnemy e d).speed = e.speed ∧
      (freezeEnemy e d).originalSpeed = e.originalSpeed) ∧
    (¬ 0 < e.freezeTime →
      (freezeEnemy e d).originalSpeed = some e.speed ∧
      (freezeEnemy e d).speed = 0 ∧
      (freezeEnemy e d).freezeTime = d) ∧
    ((unfreezeEnemy e).freezeTime = 0) ∧
    (∀ s, e.originalSpeed = some s → (unfreezeEnemy e).speed = s) := by
  refine ⟨?_, ?_, ?_, ?_⟩
  · intro h
    simp [freezeEnemy, h]
  · intro h
    simp [freezeEnemy, h]
  · cases hs : e.originalSpeed <;> simp [unfreezeEnemy, hs]
  · intro s hs
    simp [unfreezeEnemy, hs]

/-- Witness for C6 at a concrete enemy: frozen for 3 s, refrozen for 2 s,
yields 5 s; and a fresh freeze of the unfrozen variant stashes speed 70. -/
theorem freeze_additive_stash_restore_witness :
    (freezeEnemy { x := 0, y := 0, width := 32, height := 32, health := 1,
                   points := 10, speed := 0, freezeTime := 3,
                   originalSpeed := some 70 } 2).freezeTime = 3 + 2 ∧
    (freezeEnemy { x := 0, y := 0, width := 32, height := 32, health := 1,
                   points := 10, speed := 70, freezeTime := 0 } 2).speed = 0 ∧
    (unfreezeEnemy { x := 0, y := 0, width := 32, height := 32, health := 1,
                     points := 10, speed := 0, freezeTime := 3,
                     originalSpeed := some 70 }).speed = 70 := by
  refine ⟨?_, ?_, ?_⟩
  · exact ((freeze_additive_stash_restore _ 2).1 (by norm_num)).1
  · exact ((freeze_additive_stash_restore _ 2).2.1 (by norm_num)).2.1
  · exact (freeze_additive_stash_restore _ 2).2.2.2 70 rfl

/-! ## Enemy template table (src/js/enemies.js, `getEnemyTemplate`) -/

/-- One row of the fixed 16-entry enemy template table.  `chargeTimer` is
`none` where the JS template omits the field (non-destroyer rows). -/
structure EnemyTemplate where
  width : ℚ
  height : ℚ
  health : ℚ
  maxHealth : ℚ
  damage : ℚ
  points : ℚ
  speed : ℚ
  attackCooldown : ℚ
  attackTimer : ℚ
  color : String
  freezeTime : ℚ
  chargeTimer : Option ℚ := none
deriving Repr, DecidableEq

/-- The 16 `'${category}-${type}'`-keyed templates of
`EnemyManager.getEnemyTemplate`. -/
def enemyTemplates : List (String × EnemyTemplate) :=
  [ ("rammer-teal", { width := 32, height := 32, health := 1, maxHealth := 1, damage := 1, points := 10, speed := 70, attackCooldown := 999, attackTimer := 1, color := "#20b2aa", freezeTime := 0 }),
    ("rammer-silver", { width := 30, height := 30, health := 1, maxHealth := 1, damage := 1, points := 12, speed := 80, attackCooldown := 999, attackTimer := 1, color := "#c0c0c0", freezeTime := 0 }),
    ("rammer-blue", { width := 34, height := 34, health := 1, maxHealth := 1, damage := 1, points := 15, speed := 90, attackCooldown := 999, attackTimer := 1, color := "#1e90ff", freezeTime := 0 }),
    ("rammer-pink", { width := 32, height := 32, health := 1, maxHealth := 1, damage := 1, points := 18, speed := 85, attackCooldown := 999, attackTimer := 1, color := "#ff69b4", freezeTime := 0 }),
    ("shooter-teal", { width := 34, height := 34, health := 1, maxHealth := 1, damage := 1, points := 25, speed := 50, attackCooldown := 2, attackTimer := 1, color := "#20b2aa", freezeTime := 0 }),
    ("shooter-silver", { width := 32, height := 32, health := 1, maxHealth := 1, damage := 1, points := 28, speed := 55, attackCooldown := 9/5, attackTimer := 9/10, color := "#c0c0c0", freezeTime := 0 }),
    ("shooter-blue", { width := 36, height := 36, health := 1, maxHealth := 1, damage := 1, points := 32, speed := 60, attackCooldown := 8/5, attackTimer := 4/5, color := "#1e90ff", freezeTime := 0 }),
    ("shooter-pink", { width := 34, height := 34, health := 1, maxHealth := 1, damage := 1, points := 35, speed := 58, attackCooldown := 3/2, attackTimer := 7/10, color := "#ff69b4", freezeTime := 0 }),
    ("beam-shooter-teal", { width := 36, height := 36, health := 2, maxHealth := 2, damage := 2, points := 45, speed := 45, attackCooldown := 3, attackTimer := 3/2, color := "#20b2aa", freezeTime := 0 }),
    ("beam-shooter-silver", { width := 34, height := 34, health := 2, maxHealth := 2, damage := 2, points := 48, speed := 50, attackCooldown := 14/5, attackTimer := 7/5, color := "#c0c0c0", freezeTime := 0 }),
    ("beam-shooter-blue", { width := 38, height := 38, health := 2, maxHealth := 2, damage := 2, points := 52, speed := 52, attackCooldown := 13/5, attackTimer := 13/10, color := "#1e90ff", freezeTime := 0 }),
    ("beam-shooter-pink", { width := 36, height := 36, health := 2, maxHealth := 2, damage := 2, points := 55, speed := 48, attackCooldown := 12/5, attackTimer := 6/5, color := "#ff69b4", freezeTime := 0 }),
    ("destroyer-teal", { width := 42, height := 42, health := 3, maxHealth := 3, damage := 2, points := 70, speed := 40, attackCooldown := 2, attackTimer := 1, color := "#20b2aa", freezeTime := 0, chargeTimer := some 0 }),
    ("destroyer-silver", { width := 40, height := 40, health := 3, maxHealth := 3, damage := 2, points := 75, speed := 42, attackCooldown := 9/5, attackTimer := 9/10, color := "#c0c0c0", freezeTime := 0, chargeTimer := some 0 }),
    ("destroyer-blue", { width := 44, height := 44, health := 4, maxHealth := 4, damage := 3, points := 80, speed := 44, attackCooldown := 8/5, attackTimer := 4/5, color := "#1e90ff", freezeTime := 0, chargeTimer := some 0 }),
    ("destroyer-pink", { width := 42, height := 42, health := 4, maxHealth := 4, damage := 3, points := 85, speed := 46, attackCooldown := 3/2, attackTimer := 7/10, color := "#ff69b4", freezeTime := 0, chargeTimer := some 0 }) ]

/-- `EnemyManager.getEnemyTemplate(enemyKey)`:
`templates[enemyKey] || templates['rammer-teal']` — a missing key falls back
to the rammer-teal row (every row is a truthy object, so `||` only fires on
a lookup miss). -/
def getEnemyTemplate (enemyKey : String) : EnemyTemplate :=
  match enemyTemplates.lookup enemyKey with
  | some t => t
  | none => { width := 32, height := 32, health := 1, maxHealth := 1, damage := 1, points := 10, speed := 70, attackCooldown := 999, attackTimer := 1, color := "#20b2aa", freezeTime := 0 }

/-! ## PowerUpManager timers (src/unnamed/part_006, `updatePowerUps`) -/

/-- Mutable timer/flag state of the `PowerUpManager` (the fields read and
written by `updatePowerUps` and the activation paths). -/
structure PUM where
  shieldActive : Bool
  shieldTime : ℚ
  shieldCooldown : ℚ
  ionPulseCooldown : ℚ
  radarActive : Bool
  radarTime : ℚ
  radarCooldown : ℚ
  shieldUnlocked : Bool
  ionPulseUnlocked : Bool
  radarUnlocked : Bool
  extendedPowerUnlocked : Bool
deriving Repr, DecidableEq

/-- First block of `PowerUpManager.updatePowerUps`: while the shield is
active, `shieldTime -= deltaTime`; at ≤ 0 `deactivateShield()` runs, which
clears the active flag and zeroes `shieldTime` (its DOM/state-manager
notifications are elided). -/
def stepShieldTime (dt : ℚ) (s : PUM) : PUM :=
  if s.shieldActive then
    if s.shieldTime - dt ≤ 0 then { s with shieldActive := false, shieldTime := 0 }
    else { s with shieldTime := s.shieldTime - dt }
  else s

/-- `if (this.shieldCooldown > 0) this.shieldCooldown -= deltaTime` — note:
no floor at 0. -/
def stepShieldCooldown (dt : ℚ) (s : PUM) : PUM :=
  if s.shieldCooldown > 0 then { s with shieldCooldown := s.shieldCooldown - dt } else s

/-- `if (this.ionPulseCooldown > 0) this.ionPulseCooldown -= deltaTime` —
no floor at 0. -/
def stepIonPulseCooldown (dt : ℚ) (s : PUM) : PUM :=
  if s.ionPulseCooldown > 0 then { s with ionPulseCooldown := s.ionPulseCooldown - dt } else s

/-- Radar block of `updatePowerUps`: while the radar is active and the level
is not an auto-radar boss level, `radarTime -= deltaTime`, deactivating at
≤ 0 (the interval-clearing side effect is elided); `radarTime` itself is left
at the decremented — possibly negative — value. -/
def stepRadarTime (dt : ℚ) (autoRadar : Bool) (s : PUM) : PUM :=
  if s.radarActive && !autoRadar then
    if s.radarTime - dt ≤ 0 then { s with radarTime := s.radarTime - dt, radarActive := false }
    else { s with radarTime := s.radarTime - dt }
  else s

/-- `if (this.radarCooldown > 0) this.radarCooldown -= deltaTime` — no floor
at 0. -/
def stepRadarCooldown (dt : ℚ) (s : PUM) : PUM :=
  if s.radarCooldown > 0 then { s with radarCooldown := s.radarCooldown - dt } else s

/-- `PowerUpManager.updatePowerUps(deltaTime)`, with
`autoRadar = isBossLevelWithAutoRadar()` passed in: the five statement
blocks of the source, in source order. -/
def updatePowerUps (dt : ℚ) (autoRadar : Bool) (s : PUM) : PUM :=
  stepRadarCooldown dt (stepRadarTime dt autoRadar
    (stepIonPulseCooldown dt (stepShieldCooldown dt (stepShieldTime dt s))))

theorem stepShieldTime_preserves (dt : ℚ) (s : PUM) :
    (stepShieldTime dt s).shieldCooldown = s.shieldCooldown ∧
    (stepShieldTime dt s).ionPulseCooldown = s.ionPulseCooldown ∧
    (stepShieldTime dt s).radarCooldown = s.radarCooldown ∧
    (stepShieldTime dt s).radarTime = s.radarTime ∧
    (stepShieldTime dt s).radarActive = s.radarActive := by
  unfold stepShieldTime
  split_ifs <;> exact ⟨rfl, rfl, rfl, rfl, rfl⟩

theorem stepShieldCooldown_preserves (dt : ℚ) (s : PUM) :
    (stepShieldCooldown dt s).shieldTime = s.shieldTime ∧
    (stepShieldCooldown dt s).ionPulseCooldown = s.ionPulseCooldown ∧
    (stepShieldCooldown dt s).radarCooldown = s.radarCooldown ∧
    (stepShieldCooldown dt s).radarTime = s.radarTime ∧
    (stepShieldCooldown dt s).radarActive = s.radarActive := by
  unfold stepShieldCooldown
  split_ifs <;> exact ⟨rfl, rfl, rfl, rfl, rfl⟩

theorem stepIonPulseCooldown_preserves (dt : ℚ) (s : PUM) :
    (stepIonPulseCooldown dt s).shieldTime = s.shieldTime ∧
    (stepIonPulseCooldown dt s).shieldCooldown = s.shieldCooldown ∧
    (stepIonPulseCooldown dt s).radarCooldown = s.radarCooldown ∧
    (stepIonPulseCooldown dt s).radarTime = s.radarTime ∧
    (stepIonPulseCooldown dt s).radarActive = s.radarActive := by
  unfold stepIonPulseCooldown
  split_ifs <;> exact ⟨rfl, rfl, rfl, rfl, rfl⟩

theorem stepRadarTime_preserves (dt : ℚ) (auto : Bool) (s : PUM) :
    (stepRadarTime dt auto s).shieldTime = s.shieldTime ∧
    (stepRadarTime dt auto s).shieldCooldown = s.shieldCooldown ∧
    (stepRadarTime dt auto s).ionPulseCooldown = s.ionPulseCooldown ∧
    (stepRadarTime dt auto s).radarCooldown = s.radarCooldown := by
  unfold stepRadarTime
  split_ifs <;> exact ⟨rfl, rfl, rfl, rfl⟩

theorem stepRadarCooldown_preserves (dt : ℚ) (s : PUM) :
    (stepRadarCooldown dt s).shieldTime = s.shieldTime ∧
    (stepRadarCooldown dt s).shieldCooldown = s.shieldCooldown ∧
    (stepRadarCooldown dt s).ionPulseCooldown = s.ionPulseCooldown ∧
    (stepRadarCooldown dt s).radarTime = s.radarTime := by
  unfold stepRadarCooldown
  split_ifs <;> exact ⟨rfl, rfl, rfl, rfl⟩

/-- C9: `clear()` zeroes `active`/`cooldown`/`duration` for every key of the
states map and leaves each record's `unlocked` flag (and every other field)
unchanged; keys and order are preserved. -/
theorem clearStates_zeroes_preserving_unlocked (m : PStates) :
    clearStates m = m.map fun p =>
      (p.1, { unlocked := p.2.unlocked, active := false, cooldown := 0,
              duration := 0, cooldownDuration := p.2.cooldownDuration }) := rfl

theorem updatePowerUps_shieldCooldown_eq (dt : ℚ) (auto : Bool) (s : PUM) :
    (updatePowerUps dt auto s).shieldCooldown =
      if s.shieldCooldown > 0 then s.shieldCooldown - dt else s.shieldCooldown := by
  unfold updatePowerUps
  rw [(stepRadarCooldown_preserves dt _).2.1, (stepRadarTime_preserves dt auto _).2.1,
    (stepIonPulseCooldown_preserves dt _).2.1]
  unfold stepShieldCooldown
  rw [(stepShieldTime_preserves dt s).1]
  split_ifs <;> first | rfl | exact (stepShieldTime_preserves dt s).1

theorem updatePowerUps_ionPulseCooldown_eq (dt : ℚ) (auto : Bool) (s : PUM) :
    (updatePowerUps dt auto s).ionPulseCooldown =
      if s.ionPulseCooldown > 0 then s.ionPulseCooldown - dt else s.ionPulseCooldown := by
  unfold updatePowerUps
  rw [(stepRadarCooldown_preserves dt _).2.2.1, (stepRadarTime_preserves dt auto _).2.2.1]
  unfold stepIonPulseCooldown
  rw [(stepShieldCooldown_preserves dt _).2.1, (stepShieldTime_preserves dt s).2.1]
  split_ifs <;>
    first
    | rfl
    | rw [(stepShieldCooldown_preserves dt _).2.1, (stepShieldTime_preserves dt s).2.1]

theorem updatePowerUps_radarCooldown_eq (dt : ℚ) (auto : Bool) (s : PUM) :
    (updatePowerUps dt auto s).radarCooldown =
      if s.radarCooldown > 0 then s.radarCooldown - dt else s.radarCooldown := by
  unfold updatePowerUps
  unfold stepRadarCooldown
  rw [(stepRadarTime_preserves dt auto _).2.2.2, (stepIonPulseCooldown_preserves dt _).2.2.1,
    (stepShieldCooldown_preserves dt _).2.2.1, (stepShieldTime_preserves dt s).2.2.1]
  split_ifs <;>
    first
    | rfl
    | rw [(stepRadarTime_preserves dt auto _).2.2.2, (stepIonPulseCooldown_preserves dt _).2.2.1,
        (stepShieldCooldown_preserves dt _).2.2.1, (stepShieldTime_preserves dt s).2.2.1]

theorem updatePowerUps_radarTime_eq (dt : ℚ) (auto : Bool) (s : PUM) :
    (updatePowerUps dt auto s).radarTime =
      if s.radarActive && !auto then s.radarTime - dt else s.radarTime := by
  unfold updatePowerUps
  rw [(stepRadarCooldown_preserves dt _).2.2.2]
  unfold stepRadarTime
  rw [(stepIonPulseCooldown_preserves dt _).2.2.2.2, (stepShieldCooldown_preserves dt _).2.2.2.2,
    (stepShieldTime_preserves dt s).2.2.2.2, (stepIonPulseCooldown_preserves dt _).2.2.2.1,
    (stepShieldCooldown_preserves dt _).2.2.2.1, (stepShieldTime_preserves dt s).2.2.2.1]
  split_ifs <;>
    first
    | rfl
    | rw [(stepIonPulseCooldown_preserves dt _).2.2.2.1,
        (stepShieldCooldown_preserves dt _).2.2.2.1, (stepShieldTime_preserves dt s).2.2.2.1]

theorem updatePowerUps_shieldTime_eq (dt : ℚ) (auto : Bool) (s : PUM) :
    (updatePowerUps dt auto s).shieldTime =
      if s.shieldActive then
        (if s.shieldTime - dt ≤ 0 then 0 else s.shieldTime - dt)
      else s.shieldTime := by
  unfold updatePowerUps
  rw [(stepRadarCooldown_preserves dt _).1, (stepRadarTime_preserves dt auto _).1,
    (stepIonPulseCooldown_preserves dt _).1, (stepShieldCooldown_preserves dt _).1]
  unfold stepShieldTime
  split_ifs <;> rfl

/-- C2 (amended): with `0 ≤ dt`, both per-frame ticks are monotone
non-increasing on every cooldown/duration field; `updateCooldowns`
additionally floors cooldowns at 0 (`max(0, c - dt)` on positive cooldowns,
so a non-negative cooldown never becomes negative) and leaves durations
unchanged.  The `PowerUpManager` tick has no such floor (see the
counterexample): it only guarantees monotonicity, plus non-negativity of
`shieldTime` thanks to the deactivation reset. -/
theorem power_up_ticks_monotone (dt : ℚ) (hdt : 0 ≤ dt) (m : PStates)
    (s : PUM) (auto : Bool) :
    (List.Forall₂ (fun p q : String × PState =>
        q.1 = p.1 ∧
        q.2.cooldown ≤ p.2.cooldown ∧
        (0 ≤ p.2.cooldown → 0 ≤ q.2.cooldown) ∧
        (0 < p.2.cooldown → q.2.cooldown = max 0 (p.2.cooldown - dt)) ∧
        q.2.duration = p.2.duration ∧
        q.2.unlocked = p.2.unlocked)
      m (updateCooldowns dt m)) ∧
    (updatePowerUps dt auto s).shieldCooldown ≤ s.shieldCooldown ∧
    (updatePowerUps dt auto s).ionPulseCooldown ≤ s.ionPulseCooldown ∧
    (updatePowerUps dt auto s).radarCooldown ≤ s.radarCooldown ∧
    (updatePowerUps dt auto s).radarTime ≤ s.radarTime ∧
    (0 ≤ s.shieldTime →
      (updatePowerUps dt auto s).shieldTime ≤ s.shieldTime ∧
      0 ≤ (updatePowerUps dt auto s).shieldTime) := by
  refine ⟨?_, ?_, ?_, ?_, ?_, ?_⟩
  · rw [updateCooldowns, List.forall₂_map_right_iff, List.forall₂_same]
    intro p _
    by_cases hc : p.2.cooldown > 0
    · rw [if_pos hc]
      refine ⟨rfl, max_le (le_of_lt hc) (by linarith), fun _ => le_max_left 0 _,
        fun _ => rfl, rfl, rfl⟩
    · rw [if_neg hc]
      exact ⟨rfl, le_refl _, fun h => h, fun h => absurd h hc, rfl, rfl⟩
  · rw [updatePowerUps_shieldCooldown_eq]
    split_ifs <;> linarith
  · rw [updatePowerUps_ionPulseCooldown_eq]
    split_ifs <;> linarith
  · rw [updatePowerUps_radarCooldown_eq]
    split_ifs <;> linarith
  · rw [updatePowerUps_radarTime_eq]
    split_ifs <;> linarith
  · intro h
    rw [updatePowerUps_shieldTime_eq]
    split_ifs <;> constructor <;> linarith

/-- Witness for C2 (amended) at `dt = 1` on the manager's default state map
and a concrete `PowerUpManager` state with `shieldCooldown = 10`. -/
theorem power_up_ticks_monotone_witness :
    (0:ℚ) ≤ 1 ∧
    (List.Forall₂ (fun p q : String × PState =>
        q.1 = p.1 ∧
        q.2.cooldown ≤ p.2.cooldown ∧
        (0 ≤ p.2.cooldown → 0 ≤ q.2.cooldown) ∧
        (0 < p.2.cooldown → q.2.cooldown = max 0 (p.2.cooldown - 1)) ∧
        q.2.duration = p.2.duration ∧
        q.2.unlocked = p.2.unlocked)
      initializeDefaultStates (updateCooldowns 1 initializeDefaultStates)) ∧
    (updatePowerUps 1 false
      { shieldActive := false, shieldTime := 0, shieldCooldown := 10,
        ionPulseCooldown := 0, radarActive := false, radarTime := 0,
        radarCooldown := 0, shieldUnlocked := true, ionPulseUnlocked := false,
        radarUnlocked := false, extendedPowerUnlocked := false }).shieldCooldown ≤ 10 := by
  refine ⟨by norm_num, ?_, ?_⟩
  · exact (power_up_ticks_monotone 1 (by norm_num) initializeDefaultStates
      { shieldActive := false, shieldTime := 0, shieldCooldown := 10,
        ionPulseCooldown := 0, radarActive := false, radarTime := 0,
        radarCooldown := 0, shieldUnlocked := true, ionPulseUnlocked := false,
        radarUnlocked := false, extendedPowerUnlocked := false } false).1
  · exact (power_up_ticks_monotone 1 (by norm_num) initializeDefaultStates _ false).2.1

/-- C2 counterexample: `PowerUpManager.updatePowerUps` subtracts `deltaTime`
from a positive `shieldCooldown` with no floor, so a cooldown of 1 ticked by
`dt = 2` lands at −1: the claim that cooldowns are "never negative" and
"floored at 0" is false for this tick. -/
theorem shield_cooldown_goes_negative :
    (updatePowerUps 2 false
      { shieldActive := false, shieldTime := 0, shieldCooldown := 1,
        ionPulseCooldown := 0, radarActive := false, radarTime := 0,
        radarCooldown := 0, shieldUnlocked := true, ionPulseUnlocked := false,
        radarUnlocked := false, extendedPowerUnlocked := false }).shieldCooldown = -1 ∧
    ¬ (0 ≤ (updatePowerUps 2 false
      { shieldActive := false, shieldTime := 0, shieldCooldown := 1,
        ionPulseCooldown := 0, radarActive := false, radarTime := 0,
        radarCooldown := 0, shieldUnlocked := true, ionPulseUnlocked := false,
        radarUnlocked := false, extendedPowerUnlocked := false }).shieldCooldown) := by
  constructor <;> rw [updatePowerUps_shieldCooldown_eq] <;> norm_num

/-- Default template row the fallback returns (the `'rammer-teal'` row). -/
def rammerTealTemplate : EnemyTemplate :=
  { width := 32, height := 32, health := 1, maxHealth := 1, damage := 1,
    points := 10, speed := 70, attackCooldown := 999, attackTimer := 1,
    color := "#20b2aa", freezeTime := 0 }

theorem mem_of_lookup_some (k : String) (t : EnemyTemplate)
    (l : List (String × EnemyTemplate)) (h : l.lookup k = some t) : (k, t) ∈ l := by
  obtain ⟨l₁, l₂, hsplit, -⟩ := List.lookup_eq_some_iff.mp h
  rw [hsplit]
  simp

/-- C10: `getEnemyTemplate` is total — for a key that matches none of the 16
table entries it returns the rammer-teal default row, and for every key the
result is one of the 16 fixed (well-formed) template rows. -/
theorem getEnemyTemplate_unknown_defaults (k : String) :
    ((∀ p ∈ enemyTemplates, p.1 ≠ k) → getEnemyTemplate k = rammerTealTemplate) ∧
    ∃ p ∈ enemyTemplates, getEnemyTemplate k = p.2 := by
  constructor
  · intro h
    have hnone : enemyTemplates.lookup k = none := by
      rw [List.lookup_eq_none_iff]
      intro p hp
      simp [bne_iff_ne]
      exact fun hk => (h p hp) hk.symm
    rw [getEnemyTemplate, hnone]
    rfl
  · cases hl : enemyTemplates.lookup k with
    | some t =>
      refine ⟨(k, t), mem_of_lookup_some k t _ hl, ?_⟩
      rw [getEnemyTemplate, hl]
    | none =>
      refine ⟨("rammer-teal", rammerTealTemplate), ?_, ?_⟩
      · simp [enemyTemplates, rammerTealTemplate]
      · rw [getEnemyTemplate, hl]
        rfl

/-- Witness for C10 at the unrecognized key `"azure-bomb"`: the lookup falls
back to the rammer-teal row. -/
theorem getEnemyTemplate_unknown_defaults_witness :
    getEnemyTemplate "azure-bomb" = rammerTealTemplate ∧
    ∃ p ∈ enemyTemplates, getEnemyTemplate "azure-bomb" = p.2 := by
  refine ⟨(getEnemyTemplate_unknown_defaults "azure-bomb").1 (by decide),
    (getEnemyTemplate_unknown_defaults "azure-bomb").2⟩

/-! ## Shield activation (src/unnamed/part_006, `PowerUpManager`) -/

/-- A 2-D point (the player's center, `player.center`). -/
structure Point where
  x : ℚ
  y : ℚ
deriving Repr, DecidableEq

/-- `config.powerups.shield` of the engine's built-in default config
document (`src/js/game-engine.js`, `loadConfiguration` fallback). -/
structure ShieldConfig where
  availableFromLevel : ℕ
  rechargeTime : ℚ
  duration : ℚ
  freezeDuration : ℚ
deriving Repr, DecidableEq

/-- `config.extendedPower.shieldBoost`.  `cooldown` is optional: the source
reads it with `extendedConfig.cooldown || shieldConfig.rechargeTime`. -/
structure ShieldBoostConfig where
  duration : ℚ
  freezeDuration : ℚ
  cooldown : Option ℚ
deriving Repr, DecidableEq

/-- The shield-relevant slice of the config document. -/
structure Config where
  shield : ShieldConfig
  shieldBoost : ShieldBoostConfig
deriving Repr, DecidableEq

/-- The engine's hardcoded default config values for the shield. -/
def defaultConfig : Config :=
  { shield := { availableFromLevel := 1, rechargeTime := 30, duration := 10, freezeDuration := 2 },
    shieldBoost := { duration := 15, freezeDuration := 3, cooldown := some 25 } }

/-- JS `a || b` over an optional number: falls back when `a` is absent
(`undefined`) or `0` (both falsy). -/
def jsOr (a : Option ℚ) (b : ℚ) : ℚ :=
  match a with
  | some v => if v = 0 then b else v
  | none => b

/-- The proximity test of `freezeEnemiesInRadius` / `checkShieldCollisions`:
the source compares `Math.sqrt(dx*dx + dy*dy) < radius` against the enemy's
center; for a positive radius that is equivalent to the square-free
`dx*dx + dy*dy < radius*radius` used here (ℚ has no square root). -/
def withinRadius (pc : Point) (e : Enemy) (radius : ℚ) : Bool :=
  let dx := e.x + e.width / 2 - pc.x
  let dy := e.y + e.height / 2 - pc.y
  decide (dx * dx + dy * dy < radius * radius)

/-- The freeze duration both shield paths pass to `freezeEnemy`:
`extendedPower.shieldBoost.freezeDuration` when the extended-power upgrade is
unlocked, else `powerups.shield.freezeDuration`. -/
def shieldFreezeDuration (cfg : Config) (ext : Bool) : ℚ :=
  if ext then cfg.shieldBoost.freezeDuration else cfg.shield.freezeDuration

/-- `PowerUpManager.freezeEnemiesInRadius(radius)`: freezes every enemy whose
center lies within `radius` of the player's center — with no already-frozen
check and no score award. -/
def freezeEnemiesInRadius (cfg : Config) (ext : Bool) (pc : Point) (radius : ℚ)
    (enemies : List Enemy) : List Enemy :=
  enemies.map fun e =>
    if withinRadius pc e radius then freezeEnemy e (shieldFreezeDuration cfg ext) else e

/-- `PowerUpManager.activateShield()`: guarded by
`unlocked && cooldown <= 0 && !active`; on success sets the active flag,
`shieldTime` and `shieldCooldown` from config (extended-power variants when
unlocked), then freezes enemies within a 48 px radius.  Returns the updated
manager state, the updated enemy list, and the JS boolean result.  The DOM
shield element and the mirroring of the same values into the
`PowerUpStateManager` store are elided; the path contains no `addScore`
call. -/
def activateShield (cfg : Config) (s : PUM) (pc : Point) (enemies : List Enemy) :
    PUM × List Enemy × Bool :=
  if s.shieldUnlocked && decide (s.shieldCooldown ≤ 0) && !s.shieldActive then
    let newTime := if s.extendedPowerUnlocked then cfg.shieldBoost.duration else cfg.shield.duration
    let newCd := if s.extendedPowerUnlocked then jsOr cfg.shieldBoost.cooldown cfg.shield.rechargeTime
      else cfg.shield.rechargeTime
    ({ s with shieldActive := true, shieldTime := newTime, shieldCooldown := newCd },
     freezeEnemiesInRadius cfg s.extendedPowerUnlocked pc 48 enemies, true)
  else (s, enemies, false)

/-- `PowerUpManager.checkShieldCollisions()` (runs every frame from
`update`): while the shield is active, every enemy that is NOT currently
frozen (`!enemy.freezeTime || enemy.freezeTime <= 0`) and whose center is
within the 48 px shield radius is frozen and `addScore(1)` fires for it.
Returns the updated enemy list and the total score awarded by the pass
(particle effects elided). -/
def checkShieldCollisions (cfg : Config) (s : PUM) (pc : Point)
    (enemies : List Enemy) : List Enemy × ℕ :=
  if s.shieldActive then
    (enemies.map fun e =>
      if decide (e.freezeTime ≤ 0) && withinRadius pc e 48 then
        freezeEnemy e (shieldFreezeDuration cfg s.extendedPowerUnlocked)
      else e,
     (enemies.filter fun e => decide (e.freezeTime ≤ 0) && withinRadius pc e 48).length)
  else (enemies, 0)

theorem freezeEnemy_preserves_geometry (e : Enemy) (d : ℚ) :
    (freezeEnemy e d).x = e.x ∧ (freezeEnemy e d).y = e.y ∧
    (freezeEnemy e d).width = e.width ∧ (freezeEnemy e d).height = e.height := by
  unfold freezeEnemy
  split_ifs <;> exact ⟨rfl, rfl, rfl, rfl⟩

theorem withinRadius_freezeEnemy (pc : Point) (e : Enemy) (d r : ℚ) :
    withinRadius pc (freezeEnemy e d) r = withinRadius pc e r := by
  obtain ⟨hx, hy, hw, hh⟩ := freezeEnemy_preserves_geometry e d
  unfold withinRadius
  rw [hx, hy, hw, hh]

/-- C7 (amended): activating Shield with it unlocked, off cooldown and not
already active succeeds, freezes every enemy within 48 px of the player's
center (an unfrozen one ends with `speed = 0` and
`freezeTime = configured freeze duration`), and sets `shieldCooldown` to the
configured recharge time — but awards NO score: the activation path contains
no score call, and (for a positive configured freeze duration) the per-frame
shield pass that is the only `+1`-per-enemy scoring site finds every enemy
that was inside the radius already frozen, so it awards 0 for them. -/
theorem shield_activation_freezes_without_score (cfg : Config) (s : PUM) (pc : Point)
    (es : List Enemy) (hu : s.shieldUnlocked = true) (hc : s.shieldCooldown ≤ 0)
    (ha : s.shieldActive = false) :
    (activateShield cfg s pc es).2.2 = true ∧
    (activateShield cfg s pc es).1.shieldActive = true ∧
    (activateShield cfg s pc es).1.shieldCooldown =
      (if s.extendedPowerUnlocked then jsOr cfg.shieldBoost.cooldown cfg.shield.rechargeTime
       else cfg.shield.rechargeTime) ∧
    (activateShield cfg s pc es).2.1 =
      es.map (fun e => if withinRadius pc e 48 then
        freezeEnemy e (shieldFreezeDuration cfg s.extendedPowerUnlocked) else e) ∧
    (∀ e : Enemy, withinRadius pc e 48 = true → e.freezeTime ≤ 0 →
      (freezeEnemy e (shieldFreezeDuration cfg s.extendedPowerUnlocked)).speed = 0 ∧
      (freezeEnemy e (shieldFreezeDuration cfg s.extendedPowerUnlocked)).freezeTime =
        shieldFreezeDuration cfg s.extendedPowerUnlocked) ∧
    (0 < shieldFreezeDuration cfg s.extendedPowerUnlocked →
      (checkShieldCollisions cfg (activateShield cfg s pc es).1 pc
        (activateShield cfg s pc es).2.1).2 = 0) := by
  have hguard : (s.shieldUnlocked && decide (s.shieldCooldown ≤ 0) && !s.shieldActive) = true := by
    rw [hu, ha]
    simp [hc]
  refine ⟨?_, ?_, ?_, ?_, ?_, ?_⟩
  · unfold activateShield
    rw [hguard]
    rfl
  · unfold activateShield
    rw [hguard]
    rfl
  · unfold activateShield
    rw [hguard]
    rfl
  · unfold activateShield
    rw [hguard]
    rfl
  · intro e _ hf
    constructor
    · unfold freezeEnemy
      rw [if_neg (by linarith)]
    · unfold freezeEnemy
      rw [if_neg (by linarith)]
  · intro hd
    have hact : (activateShield cfg s pc es).1.shieldActive = true := by
      unfold activateShield
      rw [hguard]
      rfl
    have henem : (activateShield cfg s pc es).2.1 =
        freezeEnemiesInRadius cfg s.extendedPowerUnlocked pc 48 es := by
      unfold activateShield
      rw [hguard]
      rfl
    unfold checkShieldCollisions
    rw [hact, if_pos rfl, henem]
    have : (freezeEnemiesInRadius cfg s.extendedPowerUnlocked pc 48 es).filter
        (fun e => decide (e.freezeTime ≤ 0) && withinRadius pc e 48) = [] := by
      rw [List.filter_eq_nil_iff]
      intro e' he'
      rw [freezeEnemiesInRadius, List.mem_map] at he'
      obtain ⟨e, _, rfl⟩ := he'
      by_cases hin : withinRadius pc e 48 = true
      · rw [if_pos hin]
        have hft : 0 < (freezeEnemy e (shieldFreezeDuration cfg s.extendedPowerUnlocked)).freezeTime := by
          unfold freezeEnemy
          by_cases hf : e.freezeTime > 0
          · rw [if_pos hf]
            show 0 < e.freezeTime + _
            linarith
          · rw [if_neg hf]
            exact hd
        simp [hft]
      · rw [if_neg hin]
        simp [hin]
    rw [this]
    rfl

/-- A shield-ready `PowerUpManager` state: shield unlocked, no cooldown,
not active, extended power locked. -/
def shieldReadyPUM : PUM :=
  { shieldActive := false, shieldTime := 0, shieldCooldown := 0,
    ionPulseCooldown := 0, radarActive := false, radarTime := 0,
    radarCooldown := 0, shieldUnlocked := true, ionPulseUnlocked := false,
    radarUnlocked := false, extendedPowerUnlocked := false }

/-- An unfrozen enemy whose center sits 40 px from the player center
`(100, 100)` — inside the 48 px shield radius but clear of the player's own
body rect (so none of the engine's player-contact collision paths are in
play). -/
def enemyNearPlayer : Enemy :=
  { x := 124, y := 84, width := 32, height := 32, health := 1, points := 10,
    speed := 70, freezeTime := 0 }

/-- C7 counterexample: with the default config, a ready shield and one
unfrozen enemy sitting on the player's center, `activateShield` freezes the
enemy (`freezeTime = 2`, `speed = 0`) and sets the 30 s cooldown, yet no
`+1` is awarded: the activation path contains no score call, and the next
frame's `checkShieldCollisions` pass — the only `addScore(1)` site — awards
0 because the enemy is already frozen.  This falsifies the claim's
"awards +1 score per frozen enemy". -/
theorem shield_activation_no_plus_one :
    ((activateShield defaultConfig shieldReadyPUM { x := 100, y := 100 }
        [enemyNearPlayer]).2.1.map Enemy.freezeTime = [2]) ∧
    ((activateShield defaultConfig shieldReadyPUM { x := 100, y := 100 }
        [enemyNearPlayer]).2.1.map Enemy.speed = [0]) ∧
    ((activateShield defaultConfig shieldReadyPUM { x := 100, y := 100 }
        [enemyNearPlayer]).1.shieldCooldown = 30) ∧
    ((checkShieldCollisions defaultConfig
        (activateShield defaultConfig shieldReadyPUM { x := 100, y := 100 }
          [enemyNearPlayer]).1
        { x := 100, y := 100 }
        (activateShield defaultConfig shieldReadyPUM { x := 100, y := 100 }
          [enemyNearPlayer]).2.1).2 = 0) := by
  norm_num [activateShield, shieldReadyPUM, enemyNearPlayer, defaultConfig,
    freezeEnemiesInRadius, freezeEnemy, withinRadius, shieldFreezeDuration,
    checkShieldCollisions, jsOr]

/-- Witness for C7 (amended): default config, shield unlocked and ready, one
unfrozen enemy centered on the player — activation succeeds, the cooldown is
set to 30, the enemy ends frozen for 2 s at speed 0, and the follow-up
shield pass awards 0. -/
theorem shield_activation_freezes_without_score_witness :
    (activateShield defaultConfig
      { shieldActive := false, shieldTime := 0, shieldCooldown := 0,
        ionPulseCooldown := 0, radarActive := false, radarTime := 0,
        radarCooldown := 0, shieldUnlocked := true, ionPulseUnlocked := false,
        radarUnlocked := false, extendedPowerUnlocked := false }
      { x := 100, y := 100 }
      [{ x := 84, y := 84, width := 32, height := 32, health := 1, points := 10,
         speed := 70, freezeTime := 0 }]).2.2 = true ∧
    (checkShieldCollisions defaultConfig
      (activateShield defaultConfig
        { shieldActive := false, shieldTime := 0, shieldCooldown := 0,
          ionPulseCooldown := 0, radarActive := false, radarTime := 0,
          radarCooldown := 0, shieldUnlocked := true, ionPulseUnlocked := false,
          radarUnlocked := false, extendedPowerUnlocked := false }
        { x := 100, y := 100 }
        [{ x := 84, y := 84, width := 32, height := 32, health := 1, points := 10,
           speed := 70, freezeTime := 0 }]).1
      { x := 100, y := 100 }
      (activateShield defaultConfig
        { shieldActive := false, shieldTime := 0, shieldCooldown := 0,
          ionPulseCooldown := 0, radarActive := false, radarTime := 0,
          radarCooldown := 0, shieldUnlocked := true, ionPulseUnlocked := false,
          radarUnlocked := false, extendedPowerUnlocked := false }
        { x := 100, y := 100 }
        [{ x := 84, y := 84, width := 32, height := 32, health := 1, points := 10,
           speed := 70, freezeTime := 0 }]).2.1).2 = 0 := by
  constructor
  · exact (shield_activation_freezes_without_score defaultConfig _ _ _ rfl (by norm_num) rfl).1
  · exact (shield_activation_freezes_without_score defaultConfig _ _ _ rfl (by norm_num) rfl).2.2.2.2.2
      (by norm_num [shieldFreezeDuration, defaultConfig])


/-! ## BossManager (src/unnamed/part_005) -/

/-- One entry of `config.bosses` (default config document in
`src/js/game-engine.js`). -/
structure BossCfg where
  level : ℕ
  health : ℚ
  attackCooldown : ℚ
  reward : String
deriving Repr, DecidableEq

/-- The five `config.bosses` entries of the engine's default config. -/
def defaultBosses : List (String × BossCfg) :=
  [ ("meteorCommander", { level := 15, health := 20, attackCooldown := 2, reward := "radar" }),
    ("skullReaper", { level := 30, health := 50, attackCooldown := 9/5, reward := "shield" }),
    ("theMachine", { level := 45, health := 100, attackCooldown := 3/2, reward := "ionPulse" }),
    ("biohazardTitan", { level := 60, health := 200, attackCooldown := 6/5, reward := "extendedPower" }),
    ("cosmicHorror", { level := 75, health := 500, attackCooldown := 4/5, reward := "endlessMode" }) ]

/-- The fixed name order `getBossNumber` indexes into. -/
def bossNames : List String :=
  ["meteorCommander", "skullReaper", "theMachine", "biohazardTitan", "cosmicHorror"]

/-- `BossManager.getBossNumber(level)`: the first `config.bosses` entry whose
`level` matches gives the boss name, converted to a 1-based number via
`bossNames.indexOf(name) + 1`.  A JS miss yields `indexOf = -1`, so the
function returns the falsy `0` (no match at all returns `null`); the caller
`spawnBoss` bails on both, modelled as `none`. -/
def getBossNumber (bosses : List (String × BossCfg)) (level : ℕ) : Option ℕ :=
  match bosses.find? (fun p => p.2.level == level) with
  | some p => (bossNames.indexOf? p.1).map (· + 1)
  | none => none

/-- The fixed per-number part of `createBossTemplate`'s `bossTemplates`
object: name, size, speed, attack list, color. -/
structure BossTemplate where
  name : String
  width : ℚ
  height : ℚ
  speed : ℚ
  attacks : List String
  color : String
deriving Repr, DecidableEq

/-- The five hardcoded `bossTemplates` rows. -/
def bossTemplates (n : ℕ) : Option BossTemplate :=
  match n with
  | 1 => some { name := "Meteor Commander", width := 80, height := 80, speed := 40,
                attacks := ["meteorSpread"], color := "#8b4513" }
  | 2 => some { name := "Skull Reaper", width := 100, height := 100, speed := 35,
                attacks := ["bigMeteorSpread"], color := "#ff4444" }
  | 3 => some { name := "The Machine", width := 120, height := 120, speed := 30,
                attacks := ["rotatingLasers"], color := "#00ffff" }
  | 4 => some { name := "Biohazard Titan", width := 140, height := 140, speed := 25,
                attacks := ["enemySpawn", "toxicClouds"], color := "#00ff00" }
  | 5 => some { name := "Cosmic Horror", width := 160, height := 160, speed := 20,
                attacks := ["meteorSpread", "bigMeteorSpread", "rotatingLasers", "enemySpawn", "toxicClouds"],
                color := "#ff00ff" }
  | _ => none

/-- The live boss object assembled by `createBossTemplate`. -/
structure Boss where
  name : String
  width : ℚ
  height : ℚ
  speed : ℚ
  attacks : List String
  color : String
  maxHealth : ℚ
  health : ℚ
  reward : String
  attackCooldown : ℚ
  attackTimer : ℚ
  phase : ℕ
  x : ℚ
  y : ℚ
  targetX : ℚ
  targetY : ℚ
deriving Repr, DecidableEq

/-- `BossManager.createBossTemplate(bossNumber)`: looks up the boss name
(`bossNames[bossNumber - 1]`), its config entry (`null` when absent) and
template row, then builds the boss with `health = maxHealth = config health`,
`attackTimer = attackCooldown / 2`, `phase = 1`, positioned top-center of the
canvas. -/
def createBossTemplate (bosses : List (String × BossCfg)) (canvasW : ℚ) (n : ℕ) : Option Boss :=
  match bossNames.get? (n - 1) with
  | none => none
  | some bossName =>
    match bosses.lookup bossName with
    | none => none
    | some bc =>
      match bossTemplates n with
      | none => none
      | some t =>
        some { name := t.name, width := t.width, height := t.height, speed := t.speed,
               attacks := t.attacks, color := t.color,
               maxHealth := bc.health, health := bc.health, reward := bc.reward,
               attackCooldown := bc.attackCooldown, attackTimer := bc.attackCooldown / 2,
               phase := 1,
               x := (canvasW - t.width) / 2, y := 50,
               targetX := (canvasW - t.width) / 2, targetY := 50 }

/-- `BossManager.spawnBoss(level)`: bails when `getBossNumber` yields no boss
for the level, otherwise builds the boss via `createBossTemplate` (the
`bossActive` flag, bomb timer reset and DOM/effect calls are elided — the
produced `currentBoss` is returned). -/
def spawnBoss (bosses : List (String × BossCfg)) (canvasW : ℚ) (level : ℕ) : Option Boss :=
  match getBossNumber bosses level with
  | none => none
  | some n => createBossTemplate bosses canvasW n

/-- `BossManager.updateBossPhases()`: recomputes the phase from the health
fraction — `<= 0.33` gives phase 3, else `<= 0.66` gives phase 2, else 1.
The source writes the phase (and fires the transition effect, elided) only
when it changed; writing the recomputed value unconditionally is the same
state. -/
def updateBossPhases (b : Boss) : Boss :=
  let healthPercent := b.health / b.maxHealth
  let newPhase : ℕ := if healthPercent ≤ 33/100 then 3 else if healthPercent ≤ 66/100 then 2 else 1
  { b with phase := newPhase }

theorem updateBossPhases_phase3_iff (b : Boss) :
    (updateBossPhases b).phase = 3 ↔ b.health / b.maxHealth ≤ 33/100 := by
  unfold updateBossPhases
  simp only []
  split_ifs with h1 h2 <;> simp_all

/-- C3: spawning the boss of any entry of the default boss config (the five
boss levels 15/30/45/60/75) yields a boss with
`health = maxHealth = configured health` and `phase = 1`; and for any health
value, the next phase recomputation yields phase 3 exactly when the health
fraction is ≤ 33% — so at exactly 33% it is 3, and above 33% it is not. -/
theorem boss_spawn_stats_and_phase3_threshold (name : String) (bc : BossCfg)
    (canvasW : ℚ) (hmem : (name, bc) ∈ defaultBosses) :
    ((spawnBoss defaultBosses canvasW bc.level).map Boss.health = some bc.health) ∧
    ((spawnBoss defaultBosses canvasW bc.level).map Boss.maxHealth = some bc.health) ∧
    ((spawnBoss defaultBosses canvasW bc.level).map Boss.phase = some 1) ∧
    (∀ b : Boss, spawnBoss defaultBosses canvasW bc.level = some b → ∀ h' : ℚ,
      ((updateBossPhases { b with health := h' }).phase = 3 ↔ h' / b.maxHealth ≤ 33/100)) := by
  have hlast : ∀ b : Boss, ∀ h' : ℚ,
      ((updateBossPhases { b with health := h' }).phase = 3 ↔ h' / b.maxHealth ≤ 33/100) := by
    intro b h'
    simpa using updateBossPhases_phase3_iff { b with health := h' }
  simp only [defaultBosses, List.mem_cons, List.not_mem_nil, or_false, Prod.mk.injEq] at hmem
  rcases hmem with ⟨rfl, rfl⟩ | ⟨rfl, rfl⟩ | ⟨rfl, rfl⟩ | ⟨rfl, rfl⟩ | ⟨rfl, rfl⟩ <;>
    exact ⟨rfl, rfl, rfl, fun b _ h' => hlast b h'⟩

/-- Witness for C3 at the Meteor Commander entry (level 15, health 20,
canvas width 800): spawned boss has health = maxHealth = 20 and phase 1. -/
theorem boss_spawn_stats_and_phase3_threshold_witness :
    ((spawnBoss defaultBosses 800 15).map Boss.health = some 20) ∧
    ((spawnBoss defaultBosses 800 15).map Boss.maxHealth = some 20) ∧
    ((spawnBoss defaultBosses 800 15).map Boss.phase = some 1) := by
  have h := boss_spawn_stats_and_phase3_threshold "meteorCommander"
    { level := 15, health := 20, attackCooldown := 2, reward := "radar" } 800
    (by simp [defaultBosses])
  exact ⟨h.1, h.2.1, h.2.2.1⟩

/-! ## ProjectileManager collision resolution (src/unnamed/part_000) -/

/-- `projectile.source`: `'player'` for player-caused shots, `'boss'` for
boss attacks (src/unnamed/part_005), and enemy shots, which carry no
`source` field at all (src/js/enemies.js) — `undefined !== 'player'`, so
they behave exactly like an explicit enemy tag.  Every test in the source is
`source === 'player'` / `source !== 'player'`. -/
inductive Source where
  | player
  | enemy
  | boss
deriving Repr, DecidableEq

/-- Projectile record (fields read by `checkCollisions`; velocity and
lifetime drive `update`, not collision resolution). -/
structure Projectile where
  x : ℚ
  y : ℚ
  width : ℚ
  height : ℚ
  vx : ℚ
  vy : ℚ
  damage : ℚ
  lifeTime : ℚ
  source : Source
deriving Repr, DecidableEq

def Projectile.toRect (p : Projectile) : Rect :=
  { x := p.x, y := p.y, width := p.width, height := p.height }

/-- The `Player` class (second staged document inside
`src/js/game-engine.js`): the fields its collision surface reads —
position, the 48×48 size set in the constructor, `starPowerTime` and the
`damageFlash` invulnerability window.  Movement smoothing, thrust
particles, `freezeTime` and the DOM avatar play no role in projectile
resolution and are elided. -/
structure Player where
  x : ℚ
  y : ℚ
  width : ℚ
  height : ℚ
  starPowerTime : ℚ
  damageFlash : ℚ
deriving Repr, DecidableEq

/-- The `get bounds()` getter of the `Player` class: the plain
`{x, y, width, height}` rect. -/
def Player.bounds (p : Player) : Rect :=
  { x := p.x, y := p.y, width := p.width, height := p.height }

/-- `Player.takeDamage()` (src/js/game-engine.js, staged `player.js`
document): the hit is absorbed — returning `true` — when the shield is
active (`game.powerups.isShieldActive()`, passed in here), or
`starPowerTime > 0`, or a `damageFlash` window is already running;
otherwise `damageFlash` is set to 2.0 and it returns `false` (a life is
lost).  The appearance update and screen shake are elided. -/
def Player.takeDamage (p : Player) (shieldActive : Bool) : Player × Bool :=
  if shieldActive || decide (p.starPowerTime > 0) || decide (p.damageFlash > 0) then
    (p, true)
  else
    ({ p with damageFlash := 2 }, false)

/-- The inner enemy loop of `checkCollisions` for a player-sourced
projectile, on an already-reversed list (the source iterates `j` from the
end of the array toward 0): the first overlapping enemy takes
`projectile.damage` and the loop `break`s — every other enemy is untouched.
The 2-particle explosion effect is elided. -/
def damageFirstHit (p : Projectile) : List Enemy → List Enemy × Bool
  | [] => ([], false)
  | e :: rest =>
    if checkRectCollision p.toRect e.toRect then
      ({ e with health := e.health - p.damage } :: rest, true)
    else
      let r := damageFirstHit p rest
      (e :: r.1, r.2)

/-- The enemy scan in array terms: reverse, scan front-to-back with break,
reverse back. -/
def hitFirstEnemyFromEnd (p : Projectile) (es : List Enemy) : List Enemy × Bool :=
  let r := damageFirstHit p es.reverse
  (r.1.reverse, r.2)

/-- Outcome of resolving one projectile within one frame. -/
structure ResolveOut where
  enemies : List Enemy
  player : Player
  livesDelta : ℤ
  hitEnemy : Bool
  hitPlayer : Bool
  removed : Bool
deriving Repr, DecidableEq

/-- One iteration of `ProjectileManager.checkCollisions`' outer loop for
projectile `p`: a `'player'`-sourced projectile runs the enemy loop only
(`collided` = first overlap, if any, which also ends its scan); any other
source tests the player's bounds only — and when the player is protected
(`powerups.isShieldActive() || player.starPowerTime > 0`) NOTHING happens:
`collided` stays false, so the projectile is not removed.  Unprotected hits
delegate to `player.takeDamage()`, decrementing `lives` when it returns
false (HUD/game-over calls elided).  The projectile is spliced out exactly
when `collided` is true. -/
def resolveProjectile (p : Projectile) (es : List Enemy) (pl : Player)
    (shieldActive : Bool) : ResolveOut :=
  if p.source = Source.player then
    let r := hitFirstEnemyFromEnd p es
    { enemies := r.1, player := pl, livesDelta := 0, hitEnemy := r.2,
      hitPlayer := false, removed := r.2 }
  else
    if checkRectCollision p.toRect pl.bounds then
      if shieldActive || decide (pl.starPowerTime > 0) then
        { enemies := es, player := pl, livesDelta := 0, hitEnemy := false,
          hitPlayer := false, removed := false }
      else
        let d := pl.takeDamage shieldActive
        { enemies := es, player := d.1, livesDelta := if d.2 then 0 else -1,
          hitEnemy := false, hitPlayer := true, removed := true }
    else
      { enemies := es, player := pl, livesDelta := 0, hitEnemy := false,
        hitPlayer := false, removed := false }

/-- Frame-level result of `checkCollisions`. -/
structure CCOut where
  survivors : List Projectile
  enemies : List Enemy
  player : Player
  livesDelta : ℤ
deriving Repr, DecidableEq

/-- `ProjectileManager.checkCollisions(enemies, player)`: the outer loop runs
`i` from the last projectile down to 0, resolving each projectile once
against the enemy list/player state left by the previously processed
(later) projectiles, and splicing it out when it collided.  Survivors keep
their relative order. -/
def checkCollisions (ps : List Projectile) (es : List Enemy) (pl : Player)
    (shieldActive : Bool) : CCOut :=
  match ps with
  | [] => { survivors := [], enemies := es, player := pl, livesDelta := 0 }
  | p :: rest =>
    let r := checkCollisions rest es pl shieldActive
    let ro := resolveProjectile p r.enemies r.player shieldActive
    { survivors := if ro.removed then r.survivors else p :: r.survivors,
      enemies := ro.enemies, player := ro.player,
      livesDelta := r.livesDelta + ro.livesDelta }

theorem damageFirstHit_of_no_overlap (p : Projectile) (l : List Enemy)
    (h : ∀ e ∈ l, checkRectCollision p.toRect e.toRect = false) :
    damageFirstHit p l = (l, false) := by
  induction l with
  | nil => rfl
  | cons e rest ih =>
    unfold damageFirstHit
    rw [h e (List.mem_cons_self e rest)]
    simp only []
    rw [ih fun e' he' => h e' (List.mem_cons_of_mem e he')]
    simp

theorem damageFirstHit_of_split (p : Projectile) (pre post : List Enemy) (e : Enemy)
    (hpre : ∀ e' ∈ pre, checkRectCollision p.toRect e'.toRect = false)
    (he : checkRectCollision p.toRect e.toRect = true) :
    damageFirstHit p (pre ++ e :: post) =
      (pre ++ { e with health := e.health - p.damage } :: post, true) := by
  induction pre with
  | nil =>
    unfold damageFirstHit
    rw [List.nil_append, List.nil_append]
    simp [he]
  | cons a pre' ih =>
    unfold damageFirstHit
    rw [List.cons_append]
    simp only []
    rw [hpre a (List.mem_cons_self a pre')]
    simp only [if_neg Bool.false_ne_true]
    rw [ih fun e' he' => hpre e' (List.mem_cons_of_mem a he')]
    simp

theorem hitFirstEnemyFromEnd_of_no_overlap (p : Projectile) (es : List Enemy)
    (h : ∀ e ∈ es, checkRectCollision p.toRect e.toRect = false) :
    hitFirstEnemyFromEnd p es = (es, false) := by
  unfold hitFirstEnemyFromEnd
  rw [damageFirstHit_of_no_overlap p es.reverse fun e he => h e (List.mem_reverse.mp he)]
  simp

theorem checkCollisions_survivors_sublist (ps : List Projectile) (es : List Enemy)
    (pl : Player) (sh : Bool) :
    (checkCollisions ps es pl sh).survivors.Sublist ps := by
  induction ps with
  | nil => exact List.Sublist.refl []
  | cons p rest ih =>
    unfold checkCollisions
    simp only []
    by_cases hr : (resolveProjectile p (checkCollisions rest es pl sh).enemies
        (checkCollisions rest es pl sh).player sh).removed = true
    · rw [if_pos hr]
      exact List.Sublist.cons p ih
    · rw [if_neg hr]
      exact List.Sublist.cons₂ p ih

/-- C4: a projectile's `source` fixes its targets — a non-player
(enemy/boss) projectile never touches the enemy list and never flags an
enemy hit, a player-sourced projectile never hits the player or changes
lives — and each projectile gets at most one collision resolution per
frame: enemy-hit and player-hit are mutually exclusive, the projectile is
removed exactly when one happened, the winning enemy is the first
overlapping one in the loop's scan order (all others untouched), and the
frame pass keeps exactly the unresolved projectiles (a sublist of the
input, each input projectile resolved at most once). -/
theorem projectile_source_discipline (p : Projectile) (es : List Enemy) (pl : Player)
    (sh : Bool) (ps : List Projectile) :
    (p.source ≠ Source.player →
      (resolveProjectile p es pl sh).enemies = es ∧
      (resolveProjectile p es pl sh).hitEnemy = false) ∧
    (p.source = Source.player →
      (resolveProjectile p es pl sh).hitPlayer = false ∧
      (resolveProjectile p es pl sh).player = pl ∧
      (resolveProjectile p es pl sh).livesDelta = 0) ∧
    (¬ ((resolveProjectile p es pl sh).hitEnemy = true ∧
        (resolveProjectile p es pl sh).hitPlayer = true)) ∧
    ((resolveProjectile p es pl sh).removed =
      ((resolveProjectile p es pl sh).hitEnemy || (resolveProjectile p es pl sh).hitPlayer)) ∧
    (p.source = Source.player →
      ((∀ e ∈ es, checkRectCollision p.toRect e.toRect = false) →
        (resolveProjectile p es pl sh).enemies = es ∧
        (resolveProjectile p es pl sh).removed = false) ∧
      (∀ pre e post, es.reverse = pre ++ e :: post →
        (∀ e2 ∈ pre, checkRectCollision p.toRect e2.toRect = false) →
        checkRectCollision p.toRect e.toRect = true →
        ((resolveProjectile p es pl sh).enemies).reverse =
          pre ++ { e with health := e.health - p.damage } :: post ∧
        (resolveProjectile p es pl sh).removed = true)) ∧
    (checkCollisions ps es pl sh).survivors.Sublist ps := by
  refine ⟨?_, ?_, ?_, ?_, ?_, checkCollisions_survivors_sublist ps es pl sh⟩
  · intro hs
    unfold resolveProjectile
    rw [if_neg hs]
    split_ifs <;> exact ⟨rfl, rfl⟩
  · intro hs
    unfold resolveProjectile
    rw [if_pos hs]
    exact ⟨rfl, rfl, rfl⟩
  · unfold resolveProjectile
    split_ifs <;> simp
  · unfold resolveProjectile
    split_ifs <;> simp
  · intro hs
    constructor
    · intro h
      unfold resolveProjectile
      rw [if_pos hs]
      rw [hitFirstEnemyFromEnd_of_no_overlap p es h]
      exact ⟨rfl, rfl⟩
    · intro pre e post hsplit hpre he
      unfold resolveProjectile
      rw [if_pos hs]
      unfold hitFirstEnemyFromEnd
      rw [hsplit, damageFirstHit_of_split p pre post e hpre he]
      simp

/-- Witness for C4: a boss-sourced projectile overlapping nothing leaves a
one-enemy list untouched with no enemy hit, and a player-sourced projectile
never hits the player. -/
theorem projectile_source_discipline_witness :
    (resolveProjectile
      { x := 0, y := 0, width := 8, height := 8, vx := 0, vy := 200, damage := 1,
        lifeTime := 3, source := Source.boss }
      [enemyNearPlayer]
      { x := 400, y := 400, width := 48, height := 48,
        starPowerTime := 0, damageFlash := 0 } false).enemies = [enemyNearPlayer] ∧
    (resolveProjectile
      { x := 0, y := 0, width := 8, height := 8, vx := 0, vy := 200, damage := 1,
        lifeTime := 3, source := Source.player }
      [enemyNearPlayer]
      { x := 400, y := 400, width := 48, height := 48,
        starPowerTime := 0, damageFlash := 0 } false).hitPlayer = false := by
  constructor
  · exact ((projectile_source_discipline _ [enemyNearPlayer] _ false []).1 (by simp)).1
  · exact ((projectile_source_discipline _ [enemyNearPlayer] _ false []).2.1 rfl).1

theorem resolveProjectile_skips_protected (q : Projectile) (es : List Enemy)
    (pl : Player) (sh : Bool) (hq : q.source ≠ Source.player)
    (hst : 0 < pl.starPowerTime) :
    resolveProjectile q es pl sh =
      { enemies := es, player := pl, livesDelta := 0, hitEnemy := false,
        hitPlayer := false, removed := false } := by
  unfold resolveProjectile
  rw [if_neg hq]
  by_cases hov : checkRectCollision q.toRect pl.bounds = true
  · rw [if_pos hov, if_pos]
    simp [hst]
  · rw [if_neg hov]

/-- C5 (amended): an enemy-sourced (non-player) projectile overlapping the
player's bounds while `starPowerTime > 0` is NOT consumed — the protection
check leaves `collided` false, so the projectile stays in the live list and
simply passes through: the player takes no damage, `lives` is unchanged,
and the enemy list is untouched.  At frame level, a pass over any list of
non-player projectiles under star power keeps every projectile. -/
theorem star_power_projectile_passes_through (p : Projectile) (es : List Enemy)
    (pl : Player) (sh : Bool) (ps : List Projectile)
    (hs : p.source ≠ Source.player) (hst : 0 < pl.starPowerTime) :
    ((resolveProjectile p es pl sh).removed = false ∧
     (resolveProjectile p es pl sh).player = pl ∧
     (resolveProjectile p es pl sh).livesDelta = 0 ∧
     (resolveProjectile p es pl sh).enemies = es) ∧
    ((∀ q ∈ ps, q.source ≠ Source.player) →
      (checkCollisions ps es pl sh).survivors = ps ∧
      (checkCollisions ps es pl sh).player = pl ∧
      (checkCollisions ps es pl sh).livesDelta = 0 ∧
      (checkCollisions ps es pl sh).enemies = es) := by
  have hres : ∀ (q : Projectile) (es2 : List Enemy), q.source ≠ Source.player →
      resolveProjectile q es2 pl sh =
        { enemies := es2, player := pl, livesDelta := 0, hitEnemy := false,
          hitPlayer := false, removed := false } :=
    fun q es2 hq => resolveProjectile_skips_protected q es2 pl sh hq hst
  constructor
  · rw [hres p es hs]
    exact ⟨rfl, rfl, rfl, rfl⟩
  · intro hall
    induction ps with
    | nil => exact ⟨rfl, rfl, rfl, rfl⟩
    | cons q rest ih =>
      have hrest := ih fun q2 hq2 => hall q2 (List.mem_cons_of_mem q hq2)
      unfold checkCollisions
      simp only []
      rw [hrest.2.2.2, hrest.2.1, hres q es (hall q (List.mem_cons_self q rest))]
      refine ⟨?_, rfl, ?_, rfl⟩
      · simp [hrest.1]
      · rw [hrest.2.2.1]
        rfl

/-- A non-player projectile sitting exactly on a star-powered player. -/
def bossShotOnPlayer : Projectile :=
  { x := 98, y := 98, width := 8, height := 8, vx := 0, vy := 200, damage := 1,
    lifeTime := 3, source := Source.boss }

/-- A star-powered player at (90, 90) with the constructor's 48×48 size. -/
def starPoweredPlayer : Player :=
  { x := 90, y := 90, width := 48, height := 48,
    starPowerTime := 5, damageFlash := 0 }

/-- C5 counterexample: the projectile DOES overlap the star-powered player's
bounds, yet `checkCollisions` keeps it in the live list (it is not
consumed), with no damage and no life lost — falsifying the claim's
"the projectile is consumed (removed)". -/
theorem star_power_projectile_not_consumed :
    checkRectCollision bossShotOnPlayer.toRect starPoweredPlayer.bounds = true ∧
    0 < starPoweredPlayer.starPowerTime ∧
    (checkCollisions [bossShotOnPlayer] [] starPoweredPlayer false).survivors
      = [bossShotOnPlayer] ∧
    (checkCollisions [bossShotOnPlayer] [] starPoweredPlayer false).livesDelta = 0 ∧
    (checkCollisions [bossShotOnPlayer] [] starPoweredPlayer false).player
      = starPoweredPlayer := by
  have hres := resolveProjectile_skips_protected bossShotOnPlayer [] starPoweredPlayer
    false (by simp [bossShotOnPlayer]) (by norm_num [starPoweredPlayer])
  refine ⟨?_, by norm_num [starPoweredPlayer], ?_, ?_, ?_⟩
  · norm_num [checkRectCollision, bossShotOnPlayer, starPoweredPlayer, Projectile.toRect,
      Player.bounds]
  · norm_num [checkCollisions, hres]
  · norm_num [checkCollisions, hres]
  · norm_num [checkCollisions, hres]

/-- Witness for C5 (amended) at the same concrete state: the boss shot
passes through the star-powered player. -/
theorem star_power_projectile_passes_through_witness :
    (resolveProjectile bossShotOnPlayer [] starPoweredPlayer false).removed = false ∧
    (checkCollisions [bossShotOnPlayer] [] starPoweredPlayer false).survivors
      = [bossShotOnPlayer] := by
  constructor
  · exact ((star_power_projectile_passes_through bossShotOnPlayer [] starPoweredPlayer
      false [] (by simp [bossShotOnPlayer]) (by norm_num [starPoweredPlayer])).1).1
  · exact ((star_power_projectile_passes_through bossShotOnPlayer [] starPoweredPlayer
      false [bossShotOnPlayer] (by simp [bossShotOnPlayer])
      (by norm_num [starPoweredPlayer])).2
      (by intro q hq; simp at hq; subst hq; simp [bossShotOnPlayer])).1

/-! ## EnemyManager death sweep (src/js/enemies.js, `updateEnemies`) -/

/-- Output of one `updateEnemies` pass: the surviving roster, the number of
explosion effects fired, and the score awards emitted (in emission order). -/
structure SweepOut where
  roster : List Enemy
  explosions : ℕ
  scores : List ℚ
deriving Repr, DecidableEq

/-- The death handling of `EnemyManager.updateEnemies`, modelling the JS
`forEach` + `splice(index, 1)` exactly: the callback runs for ascending
index `k` against the CURRENT array (a removal shifts later enemies left
while `k` still advances, so the element after a removed one is skipped this
pass; indices at or past the shrunk length end the traversal).  For each
visited enemy with `health <= 0`: one explosion, removal at `k`, and one
score award — flat 5 under star power, else the enemy's `points`.  The
movement/facing/attack/DOM updates also in the loop body are elided here:
they never change `health`, roster membership, explosions or score, the
subjects of this pass. -/
def sweepFrom (starPower : Bool) (es : List Enemy) (k : ℕ) : SweepOut :=
  if h : k < es.length then
    let e := es.get ⟨k, h⟩
    if e.health ≤ 0 then
      let r := sweepFrom starPower (es.eraseIdx k) (k + 1)
      { roster := r.roster, explosions := r.explosions + 1,
        scores := (if starPower then (5 : ℚ) else e.points) :: r.scores }
    else
      sweepFrom starPower es (k + 1)
  else
    { roster := es, explosions := 0, scores := [] }
termination_by es.length - k
decreasing_by
  · simp [List.length_eraseIdx, h]
    omega
  · omega

/-- `EnemyManager.updateEnemies` as a whole-roster pass (index starts at 0);
`starPower` is `game.player.starPowerTime > 0` at sweep time. -/
def updateEnemies (starPower : Bool) (es : List Enemy) : SweepOut :=
  sweepFrom starPower es 0

/-- A dead rammer-teal (health already driven to 0 by the previous frame's
collision pass). -/
def deadTeal : Enemy :=
  { x := 10, y := 10, width := 32, height := 32, health := 0, points := 10,
    speed := 70, freezeTime := 0 }

/-- A second, adjacent dead enemy (health −1). -/
def deadSilver : Enemy :=
  { x := 60, y := 60, width := 30, height := 30, health := -1, points := 12,
    speed := 80, freezeTime := 0 }

/-- C1 (code bug): with two ADJACENT dead enemies, the `forEach` + `splice`
sweep removes the first (one explosion, one `points` award) but skips the
second — the shifted element is never visited — so a `health <= 0` enemy
stays in the roster through the next frame's collision pass, contradicting
the claimed invariant (its removal/score is deferred one frame).  The
single-dead case behaves as claimed. -/
theorem dead_enemy_survives_sweep :
    (updateEnemies false [deadTeal, deadSilver]).roster = [deadSilver] ∧
    deadSilver.health ≤ 0 ∧
    (updateEnemies false [deadTeal, deadSilver]).explosions = 1 ∧
    (updateEnemies false [deadTeal, deadSilver]).scores = [deadTeal.points] ∧
    (updateEnemies false [deadTeal]).roster = [] ∧
    (updateEnemies false [deadTeal]).explosions = 1 ∧
    (updateEnemies false [deadTeal]).scores = [deadTeal.points] ∧
    (updateEnemies true [deadTeal]).scores = [5] := by
  have h2 : updateEnemies false [deadTeal, deadSilver] =
      { roster := [deadSilver], explosions := 1, scores := [deadTeal.points] } := by
    unfold updateEnemies
    rw [sweepFrom]
    norm_num [deadTeal, List.eraseIdx]
    rw [sweepFrom]
    norm_num
  have h1 : updateEnemies false [deadTeal] =
      { roster := [], explosions := 1, scores := [deadTeal.points] } := by
    unfold updateEnemies
    rw [sweepFrom]
    norm_num [deadTeal, List.eraseIdx]
    rw [sweepFrom]
    norm_num
  have h1s : updateEnemies true [deadTeal] =
      { roster := [], explosions := 1, scores := [5] } := by
    unfold updateEnemies
    rw [sweepFrom]
    norm_num [deadTeal, List.eraseIdx]
    rw [sweepFrom]
    norm_num
  refine ⟨by rw [h2], by norm_num [deadSilver], by rw [h2], by rw [h2],
    by rw [h1], by rw [h1], by rw [h1], by rw [h1s]⟩

/-! ## Orchestrator boss-fight guard (src/js/game-engine.js, src/unnamed/part_005) -/

/-- `config.enemies.bossLevels` of the default config. -/
def bossLevels : List ℕ := [15, 30, 45, 60, 75]

/-- The orchestrator state the boss-progression functions read and write.
The three `pending` flags stand for the host timers those functions
schedule: the 1500 ms post-`levelComplete` boss-fight / enemy-spawn timer
and the 3000 ms post-defeat `levelComplete` timer. -/
structure EngineS where
  level : ℕ
  starsCollected : ℕ
  starsRequired : ℕ
  playing : Bool
  bossFightInProgress : Bool
  bossActive : Bool
  pendingBossFight : Bool
  pendingSpawnEnemies : Bool
  pendingLevelComplete : Bool
deriving Repr, DecidableEq

/-- `GameEngine.levelComplete()`: bails while `bossFightInProgress`;
otherwise advances the level, resets the star counter, and schedules (after
1500 ms) either `startBossFight(level)` on a boss level or
`enemies.spawnEnemies()`.  The level-60 extended-power unlock, power-up
availability check, HUD and text effect don't touch these fields and are
elided. -/
def levelComplete (s : EngineS) : EngineS :=
  if s.bossFightInProgress then s
  else
    let lvl := s.level + 1
    { s with
      level := lvl, starsCollected := 0,
      pendingBossFight := bossLevels.contains lvl,
      pendingSpawnEnemies := !bossLevels.contains lvl }

/-- `GameEngine.checkLevelProgression()` (runs every frame): fires
`levelComplete()` whenever the star threshold is met while playing. -/
def checkLevelProgression (s : EngineS) : EngineS :=
  if s.starsCollected ≥ s.starsRequired && s.playing then levelComplete s else s

/-- `GameEngine.startBossFight(level)`: bails while `bossFightInProgress`,
else raises the guard and spawns the boss (`bossActive` becomes true exactly
when the level maps to a configured boss); the radar auto-activation, text
effect and enemy clearing are elided. -/
def startBossFight (s : EngineS) (lvl : ℕ) : EngineS :=
  if s.bossFightInProgress then s
  else
    { s with
      bossFightInProgress := true,
      bossActive := (getBossNumber defaultBosses lvl).isSome }

/-- `BossManager.defeatBoss()`: clears the boss, immediately lowers the
orchestrator's `bossFightInProgress` flag, and schedules
`game.levelComplete()` 3000 ms later (reward grant, score and effects
elided — they don't touch these fields). -/
def defeatBoss (s : EngineS) : EngineS :=
  { s with
    bossActive := false, bossFightInProgress := false,
    pendingLevelComplete := true }

/-- The 3000 ms callback scheduled by `defeatBoss`: it calls
`game.levelComplete()` unconditionally (the only check in the source is
that the method exists). -/
def firePendingLevelComplete (s : EngineS) : EngineS :=
  levelComplete { s with pendingLevelComplete := false }

/-- C8 (amended): the `bossFightInProgress` guard blocks any second
`startBossFight` or `levelComplete` only WHILE it is raised — i.e. from boss
spawn until the moment of defeat — and `defeatBoss` lowers it immediately,
3 s before the delayed level advance it schedules, so the tail of the boss
sequence (defeat → delayed advance) runs unguarded. -/
theorem boss_guard_blocks_only_until_defeat (s : EngineS) (lvl : ℕ)
    (h : s.bossFightInProgress = true) :
    levelComplete s = s ∧
    startBossFight s lvl = s ∧
    checkLevelProgression s = s ∧
    (defeatBoss s).bossFightInProgress = false ∧
    (defeatBoss s).pendingLevelComplete = true := by
  have hlc : levelComplete s = s := by
    unfold levelComplete
    rw [if_pos h]
  refine ⟨hlc, ?_, ?_, rfl, rfl⟩
  · unfold startBossFight
    rw [if_pos h]
  · unfold checkLevelProgression
    split_ifs with hcond
    · exact hlc
    · rfl

/-- A mid-boss-fight state at level 15 whose star threshold is already met
(stars collected during the fight): the per-frame progression check is
firing `levelComplete` every frame and only the guard holds it back. -/
def fightState : EngineS :=
  { level := 15, starsCollected := 10, starsRequired := 10, playing := true,
    bossFightInProgress := true, bossActive := true, pendingBossFight := false,
    pendingSpawnEnemies := false, pendingLevelComplete := true }

/-- C8 counterexample: during the fight the guard does hold
(`checkLevelProgression` is a no-op), but the moment `defeatBoss` runs the
guard is down while the 3 s delayed advance is still pending — and the very
next frame's `checkLevelProgression` completes the level (15 → 16) inside
that window; when the delayed callback then fires, the level advances AGAIN
(16 → 17).  A second level completion does fire while the boss sequence is
still resolving, falsifying the claim. -/
theorem level_completes_during_boss_resolution :
    (checkLevelProgression fightState = fightState) ∧
    ((defeatBoss fightState).bossFightInProgress = false ∧
     (defeatBoss fightState).pendingLevelComplete = true) ∧
    ((checkLevelProgression (defeatBoss fightState)).level = 16) ∧
    ((checkLevelProgression (defeatBoss fightState)).pendingLevelComplete = true) ∧
    ((firePendingLevelComplete (checkLevelProgression (defeatBoss fightState))).level = 17) := by
  refine ⟨?_, ⟨rfl, rfl⟩, ?_, ?_, ?_⟩ <;>
    simp [checkLevelProgression, defeatBoss, fightState, levelComplete,
      firePendingLevelComplete, bossLevels]

/-- Witness for C8 (amended) at the concrete mid-fight state. -/
theorem boss_guard_blocks_only_until_defeat_witness :
    levelComplete fightState = fightState ∧
    startBossFight fightState 15 = fightState ∧
    (defeatBoss fightState).bossFightInProgress = false := by
  have h := boss_guard_blocks_only_until_defeat fightState 15 rfl
  exact ⟨h.1, h.2.1, h.2.2.2.1⟩

end StarEater
